import Mathlib

/-
  Shallow embedding of the bknd license-management backend.

  The embedding follows the JavaScript source:
  - mongoose schemas become Lean structures (models User, App, License,
    Client, Reseller, Payment);
  - route handlers become pure functions from a database snapshot (lists of
    documents) to a result together with the updated snapshot;
  - JavaScript numbers that hold counters and limits become Int (the code
    uses the sentinel -1), dates become Int timestamps compared with `now`;
  - bcrypt comparison is modelled as string equality (hashing is an external
    collaborator), and the HMAC used by the payment webhook is passed in as
    an abstract function parameter;
  - the retry-until-unique key-generation loop of the License pre-save hook
    is modelled by consuming a finite list of candidate keys, returning
    `none` when the supply is exhausted (the loop would keep retrying).
-/

namespace Bknd

/-! ## Data model -/

inductive Plan
  | free
  | premium
deriving DecidableEq, Repr

inductive PaymentStatus
  | unpaid
  | paid
deriving DecidableEq, Repr

/-- User document (models/User.js): plan and the three stored limits,
plus the list of owned app ids. -/
structure User where
  id : Nat
  plan : Plan
  paymentStatus : PaymentStatus
  maxApps : Int
  maxResellers : Int
  maxLicensesPerApp : Int
  apps : List Nat
deriving DecidableEq, Repr

/-- Plan-limit pre-save hook body (models/User.js `userSchema.pre('save')`,
the branch taken when `plan` is modified). -/
def applyPlanLimits (u : User) : User :=
  if u.plan = Plan.premium then
    { u with maxApps := -1, maxResellers := -1, maxLicensesPerApp := -1 }
  else
    { u with maxApps := 2, maxResellers := 0, maxLicensesPerApp := 30 }

/-- The pre-save hook only rewrites the limits when the plan field was
modified by the pending save. -/
def userPreSave (planModified : Bool) (u : User) : User :=
  if planModified then applyPlanLimits u else u

/-- POST /payments/razorpay/verify: on successful verification the handler
updates the user with these literal fields (both the mock and the real
branch perform the same `findByIdAndUpdate`). -/
def razorpayVerifyUpgrade (u : User) : User :=
  { u with plan := Plan.premium, paymentStatus := PaymentStatus.paid,
           maxApps := -1, maxResellers := -1, maxLicensesPerApp := -1 }

/-- POST /payments/cancel-subscription: downgrade to the free plan.
The `findByIdAndUpdate` bypasses the pre-save hook and writes the listed
fields literally. -/
def cancelSubscription (u : User) : Except String User :=
  if u.plan = Plan.free then
    Except.error "You are already on the free plan"
  else if u.apps.length > 2 then
    Except.error ("You have " ++ toString u.apps.length ++
      " apps. Please delete " ++ toString (u.apps.length - 2) ++
      " apps before downgrading to free plan.")
  else
    Except.ok { u with plan := Plan.free, paymentStatus := PaymentStatus.unpaid,
                       maxApps := 2, maxResellers := 1, maxLicensesPerApp := 30 }

/-- The invariant claimed by the spec: the stored limits are the pure
function of the plan, free giving (2, 0, 30) and premium (-1, -1, -1). -/
def planLimitInvariant (u : User) : Prop :=
  (u.plan = Plan.free →
    u.maxApps = 2 ∧ u.maxResellers = 0 ∧ u.maxLicensesPerApp = 30) ∧
  (u.plan = Plan.premium →
    u.maxApps = -1 ∧ u.maxResellers = -1 ∧ u.maxLicensesPerApp = -1)

instance (u : User) : Decidable (planLimitInvariant u) := by
  unfold planLimitInvariant
  infer_instance

/-! ## License model -/

inductive LicenseStatus
  | ACTIVE
  | REVOKED
  | EXPIRED
  | BANNED
deriving DecidableEq, Repr

inductive CreatorType
  | owner
  | reseller
deriving DecidableEq, Repr

/-- License document (unnamed License model file). -/
structure License where
  id : Nat
  app : Nat
  key : String
  createdByUser : Nat
  createdByType : CreatorType
  reseller : Option Nat
  used : Bool
  usedBy : Option Nat
  status : LicenseStatus
  note : Option String
  expiresAt : Int
deriving DecidableEq, Repr

/-- Virtual `isExpired` of the License schema: `new Date() > this.expiresAt`. -/
def License.isExpired (now : Int) (l : License) : Bool :=
  decide (now > l.expiresAt)

/-- Method `licenseSchema.methods.toggleBan`. -/
def License.toggleBan (l : License) : License :=
  if l.status = LicenseStatus.BANNED then
    { l with status := LicenseStatus.ACTIVE }
  else if l.status = LicenseStatus.ACTIVE then
    { l with status := LicenseStatus.BANNED }
  else
    l

/-- Method `licenseSchema.methods.revoke`. -/
def License.revoke (l : License) : License :=
  { l with status := LicenseStatus.REVOKED }

/-! ## Reseller model -/

/-- Reseller document (models/Reseller.js); the `allowedActions` sub-document
is flattened into four booleans. -/
structure Reseller where
  id : Nat
  email : String
  app : Nat
  licenseLimit : Int
  usedLicenses : Int
  active : Bool
  allowCreate : Bool
  allowBanUnban : Bool
  allowEditExpiry : Bool
  allowDelete : Bool
deriving DecidableEq, Repr

/-- Virtual `remainingLicenses`. -/
def Reseller.remainingLicenses (r : Reseller) : Int :=
  if r.licenseLimit = -1 then -1 else max 0 (r.licenseLimit - r.usedLicenses)

/-- Method `resellerSchema.methods.canCreateLicense`. -/
def Reseller.canCreateLicense (r : Reseller) : Bool :=
  r.active && (r.licenseLimit == -1 || decide (r.usedLicenses < r.licenseLimit))

/-- Method `resellerSchema.methods.incrementUsedLicenses`. -/
def Reseller.incrementUsedLicenses (r : Reseller) : Reseller :=
  { r with usedLicenses := r.usedLicenses + 1 }

/-- Method `resellerSchema.methods.decrementUsedLicenses`: decrements only
when the counter is positive (floor at 0). -/
def Reseller.decrementUsedLicenses (r : Reseller) : Reseller :=
  if r.usedLicenses > 0 then { r with usedLicenses := r.usedLicenses - 1 } else r

/-! ## App and Client models -/

/-- The `errorMessages` sub-document of the App schema (models/App.js).
Every field is an app-configurable string; the schema defaults are not
needed by the claims and are omitted. -/
structure ErrorMessages where
  appDisabled : String
  usernameTaken : String
  keyNotFound : String
  keyUsed : String
  usernameNotFound : String
  passMismatch : String
  hwidMismatch : String
  noActiveSubs : String
  hwidBlacklisted : String
  pausedSub : String
  vpnBlocked : String
  keyBanned : String
  userBanned : String
  sessionUnauthed : String
  hashCheckFail : String
  loggedInMsg : String
  pausedApp : String
  unTooShort : String
  pwLeaked : String
deriving DecidableEq, Repr

/-- App document (models/App.js); `settings` is flattened. -/
structure App where
  id : Nat
  name : String
  owner : Nat
  appId : String
  appSecret : String
  paused : Bool
  hwidLock : Bool
  allowCustomLicenseKey : Bool
  errorMessages : ErrorMessages
deriving DecidableEq, Repr

/-- Client document (unnamed Client model file). -/
structure Client where
  id : Nat
  app : Nat
  username : String
  password : String
  hwid : Option String
  licenseKey : String
  ban : Bool
  expiresAt : Int
  lastLogin : Option Int
  loginCount : Nat
deriving DecidableEq, Repr

/-- Database snapshot: the four collections the embedded routes read and
write. -/
structure DB where
  apps : List App
  licenses : List License
  clients : List Client
  resellers : List Reseller
deriving DecidableEq, Repr

/-- Helper `getErrorMessage` of routes/clients.js:
`app.errorMessages[key] || 'An error occurred'` (a JS empty string is falsy
and also falls back). -/
def getErrorMessage (s : String) : String :=
  if s = "" then "An error occurred" else s

/-! ## Client registration (POST /clients/register, routes/clients.js) -/

inductive RegResult
  | ok (clientId : Nat)
  | err (msg : String)
deriving DecidableEq, Repr

/-- POST /clients/register. `newClientId` stands for the id the store
assigns to the created Client document. Returns `none` only when the
populated app reference dangles (the handler would throw). On every
rejection the returned snapshot is the input snapshot. -/
def clientRegister (db : DB) (now : Int) (username password licenseKey : String)
    (hwid : Option String) (newClientId : Nat) : Option (RegResult × DB) :=
  match db.licenses.find? (fun l => l.key == licenseKey) with
  | none => some (RegResult.err "Invalid license key", db)
  | some lic =>
    match db.apps.find? (fun a => a.id == lic.app) with
    | none => none
    | some app =>
      if app.paused then
        some (RegResult.err (getErrorMessage app.errorMessages.pausedApp), db)
      else if lic.used then
        some (RegResult.err (getErrorMessage app.errorMessages.keyUsed), db)
      else if lic.status ≠ LicenseStatus.ACTIVE then
        some (RegResult.err (getErrorMessage app.errorMessages.keyBanned), db)
      else if lic.isExpired now then
        some (RegResult.err (getErrorMessage app.errorMessages.noActiveSubs), db)
      else if username.length < 3 then
        some (RegResult.err (getErrorMessage app.errorMessages.unTooShort), db)
      else if (db.clients.find? (fun c => c.app == app.id && c.username == username)).isSome then
        some (RegResult.err (getErrorMessage app.errorMessages.usernameTaken), db)
      else
        let newClient : Client :=
          { id := newClientId, app := app.id, username := username,
            password := password, hwid := hwid, licenseKey := licenseKey,
            ban := false, expiresAt := lic.expiresAt, lastLogin := none,
            loginCount := 0 }
        some (RegResult.ok newClientId,
          { db with
            clients := db.clients ++ [newClient],
            licenses := db.licenses.map (fun l =>
              if l.id == lic.id then { l with used := true, usedBy := some newClientId }
              else l) })

/-! ## Client login (POST /clients/login, routes/clients.js) -/

inductive LoginResult
  | ok (msg : String)
  | err (msg : String)
deriving DecidableEq, Repr

/-- POST /clients/login. bcrypt comparison is modelled as string equality.
`client.updateLoginInfo()` sets `lastLogin` and bumps `loginCount`; when
`hwidLock` is off a differing supplied hwid is adopted before the save. -/
def clientLogin (db : DB) (now : Int) (appIdStr appSecretStr username password hwid : String) :
    LoginResult × DB :=
  match db.apps.find? (fun a => a.appId == appIdStr && a.appSecret == appSecretStr) with
  | none => (LoginResult.err "Invalid application credentials", db)
  | some app =>
    if app.paused then
      (LoginResult.err (getErrorMessage app.errorMessages.pausedApp), db)
    else
      match db.clients.find? (fun c => c.app == app.id && c.username == username) with
      | none => (LoginResult.err (getErrorMessage app.errorMessages.usernameNotFound), db)
      | some c =>
        if password ≠ c.password then
          (LoginResult.err (getErrorMessage app.errorMessages.passMismatch), db)
        else if c.ban then
          (LoginResult.err (getErrorMessage app.errorMessages.userBanned), db)
        else if decide (now > c.expiresAt) then
          (LoginResult.err (getErrorMessage app.errorMessages.noActiveSubs), db)
        else if app.hwidLock ∧ c.hwid ≠ some hwid then
          (LoginResult.err (getErrorMessage app.errorMessages.hwidMismatch), db)
        else
          let c2 : Client :=
            { c with hwid := if app.hwidLock then c.hwid else some hwid,
                     lastLogin := some now, loginCount := c.loginCount + 1 }
          (LoginResult.ok (getErrorMessage app.errorMessages.loggedInMsg),
            { db with clients := db.clients.map (fun x => if x.id == c.id then c2 else x) })

/-! ## Client deletion (DELETE /clients/:id, routes/clients.js) -/

/-- DELETE /clients/:id: after the ownership check the handler frees the
license referenced by the client's `licenseKey` (`used := false`,
`usedBy := undefined`) and deletes the client. -/
def deleteClientRoute (db : DB) (clientId userId : Nat) : Option (Except String DB) :=
  match db.clients.find? (fun c => c.id == clientId) with
  | none => some (Except.error "Client not found")
  | some c =>
    match db.apps.find? (fun a => a.id == c.app) with
    | none => none
    | some app =>
      if app.owner ≠ userId then
        some (Except.error "You do not have permission to delete this client")
      else
        let db1 : DB :=
          { db with licenses := db.licenses.map (fun l =>
              if l.key == c.licenseKey then { l with used := false, usedBy := none }
              else l) }
        some (Except.ok { db1 with clients := db1.clients.filter (fun x => x.id != clientId) })

/-! ## License creation (POST /licenses, unnamed licenses route file) -/

/-- Key-generation loop of the License pre-save hook: draw candidates until
one is not present among the existing keys; returns the chosen key together
with the unconsumed candidates. `none` models a loop that never finds a
fresh key within the supply. -/
def pickFreshKey (existing : List String) : List String → Option (String × List String)
  | [] => none
  | c :: cs => if existing.contains c then pickFreshKey existing cs else some (c, cs)

/-- Method `appSchema.methods.canCreateLicense` (models/App.js): the app-level
quota check against the owner's `maxLicensesPerApp`. -/
def canCreateLicenseApp (db : DB) (app : App) (user : User) : Bool :=
  user.maxLicensesPerApp == -1 ||
    decide ((db.licenses.filter (fun l => l.app == app.id)).length < user.maxLicensesPerApp)

/-- POST /licenses, owner path (`app.owner == userId`). The reseller branch
of the handler is unreachable in practice (`authenticateToken` resolves the
token to a User document, and the Reseller schema has no `user` field), so
the embedding returns `none` for a non-owner caller instead of modelling it.
`newId` stands for the store-assigned id and `cands` feeds the
key-generation loop when no custom key is supplied. -/
def postLicenseOwner (db : DB) (user : User) (appIdArg : Nat) (key : Option String)
    (expiresAt : Int) (note : Option String) (newId : Nat) (cands : List String) :
    Option (Except String DB) :=
  match db.apps.find? (fun a => a.id == appIdArg) with
  | none => some (Except.error "App not found")
  | some app =>
    if app.owner ≠ user.id then
      none
    else if ¬ canCreateLicenseApp db app user then
      some (Except.error ("App has reached the maximum limit of " ++
        toString user.maxLicensesPerApp ++ " licenses for your plan"))
    else
      match key with
      | some k =>
        if ¬ app.allowCustomLicenseKey then
          some (Except.error "Custom license keys are not allowed for this app")
        else if (db.licenses.find? (fun l => l.key == k)).isSome then
          some (Except.error "License key already exists")
        else
          some (Except.ok { db with licenses := db.licenses ++
            [{ id := newId, app := appIdArg, key := k, createdByUser := user.id,
               createdByType := CreatorType.owner, reseller := none, used := false,
               usedBy := none, status := LicenseStatus.ACTIVE, note := note,
               expiresAt := expiresAt }] })
      | none =>
        match pickFreshKey (db.licenses.map (fun l => l.key)) cands with
        | none => none
        | some (k, _) =>
          some (Except.ok { db with licenses := db.licenses ++
            [{ id := newId, app := appIdArg, key := k, createdByUser := user.id,
               createdByType := CreatorType.owner, reseller := none, used := false,
               usedBy := none, status := LicenseStatus.ACTIVE, note := note,
               expiresAt := expiresAt }] })

/-! ## License deletion (DELETE /licenses/:id, unnamed licenses route file) -/

/-- DELETE /licenses/:id: only the app owner may delete; when the license
was reseller-created the handler runs a raw
`findByIdAndUpdate(reseller, \x7b $inc: \x7b usedLicenses: -1 \x7d \x7d)`,
bypassing the model's floored `decrementUsedLicenses`. -/
def deleteLicenseRoute (db : DB) (licId userId : Nat) : Option (Except String DB) :=
  match db.licenses.find? (fun l => l.id == licId) with
  | none => some (Except.error "License not found")
  | some lic =>
    match db.apps.find? (fun a => a.id == lic.app) with
    | none => none
    | some app =>
      if app.owner ≠ userId then
        some (Except.error "Only app owners can delete licenses")
      else
        let db1 : DB :=
          match lic.reseller with
          | some rid =>
            { db with resellers := db.resellers.map (fun r =>
                if r.id == rid then { r with usedLicenses := r.usedLicenses - 1 } else r) }
          | none => db
        some (Except.ok { db1 with licenses := db1.licenses.filter (fun l => l.id != licId) })

/-! ## Reseller deletion (DELETE /resellers/:id, resellers route) -/

/-- Count of the reseller's licenses in status ACTIVE, as queried by the
handler (`License.countDocuments(\x7b reseller, status: 'ACTIVE' \x7d)`). -/
def activeLicenseCount (db : DB) (rid : Nat) : Nat :=
  (db.licenses.filter (fun l => l.reseller == some rid && l.status == LicenseStatus.ACTIVE)).length

/-- DELETE /resellers/:id. -/
def deleteResellerRoute (db : DB) (rid userId : Nat) : Option (Except String DB) :=
  match db.resellers.find? (fun r => r.id == rid) with
  | none => some (Except.error "Reseller not found")
  | some r =>
    match db.apps.find? (fun a => a.id == r.app) with
    | none => none
    | some app =>
      if app.owner ≠ userId then
        some (Except.error "You can only delete resellers for your own apps")
      else if activeLicenseCount db rid > 0 then
        some (Except.error ("Cannot delete reseller with " ++
          toString (activeLicenseCount db rid) ++ " active licenses"))
      else
        some (Except.ok { db with resellers := db.resellers.filter (fun r => r.id != rid) })

/-! ## Reseller bulk license creation (POST /resellers/auth/licenses) -/

/-- Run the pre-save key generation `n` times in sequence, each draw checked
against the collection as extended by the previous inserts. -/
def genKeys (existing : List String) (cands : List String) :
    Nat → Option (List String × List String)
  | 0 => some ([], cands)
  | n + 1 =>
    match pickFreshKey existing cands with
    | none => none
    | some (k, rest) =>
      match genKeys (k :: existing) rest n with
      | none => none
      | some (ks, rest2) => some (k :: ks, rest2)

/-- Licenses built by the creation loop of POST /resellers/auth/licenses:
`createdByUser` is the reseller id, `createdByType` is 'reseller', the app is
the reseller's app. -/
def mkResellerLicenses (r : Reseller) (expiresAt : Int) (note : Option String) :
    List String → Nat → List License
  | [], _ => []
  | k :: ks, i =>
    { id := i, app := r.app, key := k, createdByUser := r.id,
      createdByType := CreatorType.reseller, reseller := some r.id, used := false,
      usedBy := none, status := LicenseStatus.ACTIVE, note := note,
      expiresAt := expiresAt } :: mkResellerLicenses r expiresAt note ks (i + 1)

/-- POST /resellers/auth/licenses. The counter update is
`incrementUsedLicenses()` followed by `usedLicenses += count - 1` and a save,
a net increase of `count`. Returns `none` when the key supply is exhausted
(the generation loop would spin). -/
def resellerBulkCreate (db : DB) (rid : Nat) (count : Nat) (expiresAt now : Int)
    (note : Option String) (startId : Nat) (cands : List String) :
    Option (Except String DB) :=
  match db.resellers.find? (fun r => r.id == rid) with
  | none => none
  | some r =>
    if ¬ r.active then
      some (Except.error "Reseller account not found or inactive")
    else if count < 1 ∨ count > 100 then
      some (Except.error "Count must be between 1 and 100")
    else if ¬ r.canCreateLicense then
      some (Except.error ("License limit reached. You can create " ++
        (if r.licenseLimit = -1 then "unlimited" else toString r.licenseLimit) ++
        " licenses total."))
    else if r.licenseLimit ≠ -1 ∧ r.usedLicenses + (count : Int) > r.licenseLimit then
      some (Except.error ("Cannot create " ++ toString count ++
        " licenses. You have " ++ toString r.remainingLicenses ++
        " licenses remaining."))
    else if ¬ (expiresAt > now) then
      some (Except.error "Valid future expiration date is required")
    else
      match genKeys (db.licenses.map (fun l => l.key)) cands count with
      | none => none
      | some (ks, _) =>
        some (Except.ok
          { db with
            licenses := db.licenses ++ mkResellerLicenses r expiresAt note ks startId,
            resellers := db.resellers.map (fun x =>
              if x.id == rid then { x with usedLicenses := x.usedLicenses + (count : Int) }
              else x) })

/-! ## Payments and the Razorpay webhook (payments route file) -/

inductive PayState
  | created
  | authorized
  | captured
  | refunded
  | failed
deriving DecidableEq, Repr

/-- Payment document (models/Payment.js), restricted to the fields the
webhook handlers touch. `paymentDetails` is an abstract key-value list; the
object-spread merge is modelled as list append. -/
structure Payment where
  id : Nat
  razorpayPaymentId : String
  status : PayState
  paymentDetails : List (String × String)
  refunds : List (String × Int)
deriving DecidableEq, Repr

structure PayDB where
  payments : List Payment
deriving DecidableEq, Repr

/-- Webhook event payloads, as destructured by the route's switch. -/
inductive WebhookEvent
  | paymentCaptured (pid : String) (details : List (String × String))
  | paymentFailed (pid : String) (errCode errDesc : String)
  | refundProcessed (paymentId refundId : String) (amount : Int)
  | other (name : String)
deriving DecidableEq, Repr

/-- Webhook request body: `raw` is its JSON serialisation (the HMAC input)
and `event` the parsed event. -/
structure WebhookReq where
  raw : String
  event : WebhookEvent
deriving DecidableEq, Repr

/-- Helper `handlePaymentCaptured`: only a payment found by
`razorpayPaymentId` whose status is not already 'captured' is updated. -/
def handlePaymentCaptured (db : PayDB) (pid : String)
    (details : List (String × String)) : PayDB :=
  match db.payments.find? (fun p => p.razorpayPaymentId == pid) with
  | none => db
  | some p =>
    if p.status ≠ PayState.captured then
      { payments := db.payments.map (fun q =>
          if q.id == p.id then
            { q with status := PayState.captured,
                     paymentDetails := q.paymentDetails ++ details }
          else q) }
    else db

/-- Helper `handlePaymentFailed`. -/
def handlePaymentFailed (db : PayDB) (pid errCode errDesc : String) : PayDB :=
  match db.payments.find? (fun p => p.razorpayPaymentId == pid) with
  | none => db
  | some p =>
    { payments := db.payments.map (fun q =>
        if q.id == p.id then
          { q with status := PayState.failed,
                   paymentDetails := q.paymentDetails ++
                     [("error_code", errCode), ("error_description", errDesc)] }
        else q) }

/-- Helper `handleRefundProcessed` (via `payment.addRefund`). -/
def handleRefundProcessed (db : PayDB) (paymentId refundId : String)
    (amount : Int) : PayDB :=
  match db.payments.find? (fun p => p.razorpayPaymentId == paymentId) with
  | none => db
  | some p =>
    { payments := db.payments.map (fun q =>
        if q.id == p.id then { q with refunds := q.refunds ++ [(refundId, amount)] }
        else q) }

/-- POST /payments/webhook. `hmac` abstracts
`crypto.createHmac('sha256', secret).update(body).digest('hex')`. A missing
or empty secret (both falsy in JS) short-circuits to a 200 without touching
the store; a signature mismatch yields a 400. -/
def webhookRoute (hmac : String → String → String) (secret : Option String)
    (sig : String) (req : WebhookReq) (db : PayDB) : Nat × PayDB :=
  match secret with
  | none => (200, db)
  | some s =>
    if s = "" then (200, db)
    else if sig ≠ hmac s req.raw then (400, db)
    else
      match req.event with
      | WebhookEvent.paymentCaptured pid details =>
        (200, handlePaymentCaptured db pid details)
      | WebhookEvent.paymentFailed pid ec ed =>
        (200, handlePaymentFailed db pid ec ed)
      | WebhookEvent.refundProcessed pid rid amt =>
        (200, handleRefundProcessed db pid rid amt)
      | WebhookEvent.other _ => (200, db)

/-! ## The license-collection invariant (claim C2) -/

/-- Invariant claimed of the License collection: a used license is bound to
a client, and keys are pairwise distinct. -/
def licenseInvariant (db : DB) : Prop :=
  (∀ l ∈ db.licenses, l.used = true → l.usedBy ≠ none) ∧
  (db.licenses.map (fun l => l.key)).Nodup

instance (db : DB) : Decidable (licenseInvariant db) := by
  unfold licenseInvariant
  infer_instance

/-! ## Concrete fixtures used by the theorems below -/

def msgsA : ErrorMessages :=
  { appDisabled := "app disabled", usernameTaken := "username taken",
    keyNotFound := "key not found msg", keyUsed := "key used",
    usernameNotFound := "username not found", passMismatch := "pass mismatch",
    hwidMismatch := "hwid mismatch", noActiveSubs := "no active subs",
    hwidBlacklisted := "hwid blacklisted", pausedSub := "paused sub",
    vpnBlocked := "vpn blocked", keyBanned := "key banned",
    userBanned := "user banned", sessionUnauthed := "session unauthed",
    hashCheckFail := "hash check fail", loggedInMsg := "logged in",
    pausedApp := "app paused", unTooShort := "username too short",
    pwLeaked := "pw leaked" }

def appA : App :=
  { id := 10, name := "demo", owner := 1, appId := "APP12345",
    appSecret := "SECRET000", paused := false, hwidLock := true,
    allowCustomLicenseKey := false, errorMessages := msgsA }

def premiumUserA : User :=
  { id := 1, plan := Plan.premium, paymentStatus := PaymentStatus.paid,
    maxApps := -1, maxResellers := -1, maxLicensesPerApp := -1, apps := [10] }

/-! ## C1 -/

/-- C1: the spec claims that for every User, plan free implies limits
(2, 0, 30) and plan premium implies (-1, -1, -1), at all times including
immediately after any plan-changing operation. The pre-save hook does
maintain this, but POST /payments/cancel-subscription writes
`maxResellers := 1` on downgrade, so immediately after a subscription
cancellation a free-plan user violates the claimed invariant. -/
theorem C1_cancel_subscription_breaks_plan_limit_invariant :
    (∀ u : User, planLimitInvariant (userPreSave true u)) ∧
    (∀ u : User, planLimitInvariant (razorpayVerifyUpgrade u)) ∧
    ∃ u2, cancelSubscription premiumUserA = Except.ok u2 ∧
      u2.plan = Plan.free ∧ u2.maxResellers = 1 ∧ ¬ planLimitInvariant u2 := by
  refine ⟨?_, ?_, ?_⟩
  · intro u
    cases hp : u.plan <;>
      simp [userPreSave, applyPlanLimits, planLimitInvariant, hp]
  · intro u
    simp [razorpayVerifyUpgrade, planLimitInvariant]
  · exact ⟨_, rfl, rfl, rfl, by decide⟩

/-! ## C4 -/

def resellerA : Reseller :=
  { id := 5, email := "r@example.com", app := 10, licenseLimit := 30,
    usedLicenses := 0, active := true, allowCreate := true,
    allowBanUnban := true, allowEditExpiry := true, allowDelete := false }

def licResellerA : License :=
  { id := 100, app := 10, key := "K100", createdByUser := 5,
    createdByType := CreatorType.reseller, reseller := some 5, used := false,
    usedBy := none, status := LicenseStatus.BANNED, note := none,
    expiresAt := 1000 }

def dbC4 : DB :=
  { apps := [appA], licenses := [licResellerA], clients := [],
    resellers := [resellerA] }

/-- C4: the spec claims deleting a reseller-created license decrements the
reseller's usedLicenses counter floored at 0. The model method
`decrementUsedLicenses` does floor at 0, but DELETE /licenses/:id bypasses
it with a raw `$inc: -1`, so deleting a license of a reseller whose counter
is 0 drives the counter to -1. -/
theorem C4_delete_license_drives_counter_negative :
    resellerA.usedLicenses = 0 ∧
    Reseller.decrementUsedLicenses resellerA = resellerA ∧
    deleteLicenseRoute dbC4 100 1 =
      some (Except.ok { dbC4 with
        licenses := [],
        resellers := [{ resellerA with usedLicenses := -1 }] }) := by
  exact ⟨rfl, by decide, rfl⟩

/-! ## C5 -/

/-- C5: `toggleBan` maps ACTIVE to BANNED and BANNED to ACTIVE, leaves
REVOKED and EXPIRED statuses unchanged, and never modifies any other field,
in particular not `used` or `usedBy`. -/
theorem C5_toggleBan_characterization (l : License) :
    l.toggleBan.used = l.used ∧ l.toggleBan.usedBy = l.usedBy ∧
    l.toggleBan = { l with status :=
      match l.status with
      | LicenseStatus.ACTIVE => LicenseStatus.BANNED
      | LicenseStatus.BANNED => LicenseStatus.ACTIVE
      | s => s } := by
  cases l with
  | mk id app key cbu cbt res used usedBy status note exp =>
    cases status <;> exact ⟨rfl, rfl, rfl⟩

/-! ## C6 -/

/-- C6: the owner's request to delete a reseller fails exactly when the
reseller has at least one license in status ACTIVE; with zero ACTIVE
licenses it succeeds and removes the reseller, regardless of licenses in
other statuses. -/
theorem C6_delete_reseller_blocked_iff_active_licenses
    (db : DB) (rid userId : Nat) (r : Reseller) (app : App)
    (hr : db.resellers.find? (fun x => x.id == rid) = some r)
    (ha : db.apps.find? (fun a => a.id == r.app) = some app)
    (hown : app.owner = userId) :
    (activeLicenseCount db rid > 0 →
      deleteResellerRoute db rid userId = some (Except.error
        ("Cannot delete reseller with " ++ toString (activeLicenseCount db rid) ++
          " active licenses"))) ∧
    (activeLicenseCount db rid = 0 →
      deleteResellerRoute db rid userId = some (Except.ok
        { db with resellers := db.resellers.filter (fun x => x.id != rid) })) := by
  unfold deleteResellerRoute
  simp only [hr, ha]
  constructor
  · intro h
    simp [hown, h]
  · intro h
    simp [hown, h]

def licActiveA : License :=
  { id := 101, app := 10, key := "K101", createdByUser := 5,
    createdByType := CreatorType.reseller, reseller := some 5, used := false,
    usedBy := none, status := LicenseStatus.ACTIVE, note := none,
    expiresAt := 1000 }

def dbC6a : DB :=
  { apps := [appA], licenses := [licActiveA, licResellerA], clients := [],
    resellers := [resellerA] }

def dbC6b : DB :=
  { apps := [appA], licenses := [licResellerA], clients := [],
    resellers := [resellerA] }

/-- Witness for C6: with one ACTIVE license the deletion is rejected; with
only a BANNED license it succeeds. -/
theorem C6_witness :
    deleteResellerRoute dbC6a 5 1 =
      some (Except.error "Cannot delete reseller with 1 active licenses") ∧
    deleteResellerRoute dbC6b 5 1 =
      some (Except.ok { apps := [appA], licenses := [licResellerA],
                        clients := [], resellers := [] }) := by
  constructor
  · exact (C6_delete_reseller_blocked_iff_active_licenses dbC6a 5 1 resellerA appA
      rfl rfl rfl).1 (by decide)
  · exact (C6_delete_reseller_blocked_iff_active_licenses dbC6b 5 1 resellerA appA
      rfl rfl rfl).2 (by decide)

/-! ## C7 -/

/-- C7: for a license-creation request carrying an explicit key (owner path,
quota passing): if the app disallows custom keys the request is rejected; if
the key already exists it is rejected; otherwise the created license's key
equals the supplied value exactly. -/
theorem C7_custom_key_validation
    (db : DB) (user : User) (appIdArg : Nat) (k : String) (expiresAt : Int)
    (note : Option String) (newId : Nat) (cands : List String) (app : App)
    (ha : db.apps.find? (fun a => a.id == appIdArg) = some app)
    (hown : app.owner = user.id)
    (hquota : canCreateLicenseApp db app user = true) :
    (app.allowCustomLicenseKey = false →
      postLicenseOwner db user appIdArg (some k) expiresAt note newId cands =
        some (Except.error "Custom license keys are not allowed for this app")) ∧
    (app.allowCustomLicenseKey = true →
      (db.licenses.find? (fun l => l.key == k)).isSome = true →
      postLicenseOwner db user appIdArg (some k) expiresAt note newId cands =
        some (Except.error "License key already exists")) ∧
    (app.allowCustomLicenseKey = true →
      db.licenses.find? (fun l => l.key == k) = none →
      postLicenseOwner db user appIdArg (some k) expiresAt note newId cands =
        some (Except.ok { db with licenses := db.licenses ++
          [{ id := newId, app := appIdArg, key := k, createdByUser := user.id,
             createdByType := CreatorType.owner, reseller := none, used := false,
             usedBy := none, status := LicenseStatus.ACTIVE, note := note,
             expiresAt := expiresAt }] })) := by
  unfold postLicenseOwner
  simp only [ha]
  refine ⟨?_, ?_, ?_⟩
  · intro hkey
    simp [hown, hquota, hkey]
  · intro hkey hdup
    simp [hown, hquota, hkey, hdup]
  · intro hkey hfresh
    simp [hown, hquota, hkey, hfresh]

def appCustomA : App := { appA with id := 11, allowCustomLicenseKey := true }

def ownerUserA : User :=
  { id := 1, plan := Plan.free, paymentStatus := PaymentStatus.unpaid,
    maxApps := 2, maxResellers := 0, maxLicensesPerApp := 30, apps := [10, 11] }

def dbC7 : DB :=
  { apps := [appA, appCustomA], licenses := [licResellerA], clients := [],
    resellers := [] }

/-- Witness for C7: a custom key is rejected on an app that disallows custom
keys; a duplicate key is rejected on an app that allows them; a fresh key is
accepted and the stored key equals the supplied one. -/
theorem C7_witness :
    postLicenseOwner dbC7 ownerUserA 10 (some "MYKEY") 500 none 200 [] =
      some (Except.error "Custom license keys are not allowed for this app") ∧
    postLicenseOwner dbC7 ownerUserA 11 (some "K100") 500 none 200 [] =
      some (Except.error "License key already exists") ∧
    postLicenseOwner dbC7 ownerUserA 11 (some "MYKEY") 500 none 200 [] =
      some (Except.ok { dbC7 with licenses := dbC7.licenses ++
        [{ id := 200, app := 11, key := "MYKEY", createdByUser := 1,
           createdByType := CreatorType.owner, reseller := none, used := false,
           usedBy := none, status := LicenseStatus.ACTIVE, note := none,
           expiresAt := 500 }] }) := by
  refine ⟨?_, ?_, ?_⟩
  · exact (C7_custom_key_validation dbC7 ownerUserA 10 "MYKEY" 500 none 200 [] appA
      rfl rfl (by decide)).1 rfl
  · exact (C7_custom_key_validation dbC7 ownerUserA 11 "K100" 500 none 200 [] appCustomA
      rfl rfl (by decide)).2.1 rfl rfl
  · exact (C7_custom_key_validation dbC7 ownerUserA 11 "MYKEY" 500 none 200 [] appCustomA
      rfl rfl (by decide)).2.2 rfl rfl

/-! ## C8 -/

/-- C8: the webhook handler returns 200 to the gateway when the secret is
missing (or empty, both falsy) without touching the store; it returns 400 on
a signature mismatch; and a payment.captured event for a payment already in
status captured leaves the store unchanged. -/
theorem C8_webhook_misconfig_signature_idempotent
    (hmac : String → String → String) (sig : String) (req : WebhookReq) (db : PayDB) :
    (webhookRoute hmac none sig req db = (200, db)) ∧
    (webhookRoute hmac (some "") sig req db = (200, db)) ∧
    (∀ s, s ≠ "" → sig ≠ hmac s req.raw →
      webhookRoute hmac (some s) sig req db = (400, db)) ∧
    (∀ s pid details p, s ≠ "" → sig = hmac s req.raw →
      req.event = WebhookEvent.paymentCaptured pid details →
      db.payments.find? (fun q => q.razorpayPaymentId == pid) = some p →
      p.status = PayState.captured →
      webhookRoute hmac (some s) sig req db = (200, db)) := by
  refine ⟨rfl, rfl, ?_, ?_⟩
  · intro s hs hsig
    simp [webhookRoute, hs, hsig]
  · intro s pid details p hs hsig hev hfind hcap
    simp [webhookRoute, hs, hsig, hev, handlePaymentCaptured, hfind, hcap]

def capturedPaymentA : Payment :=
  { id := 7, razorpayPaymentId := "pay_123", status := PayState.captured,
    paymentDetails := [], refunds := [] }

def payDbA : PayDB := { payments := [capturedPaymentA] }

def concatHmac : String → String → String := fun s b => s ++ "/" ++ b

def capturedReqA : WebhookReq :=
  { raw := "body", event := WebhookEvent.paymentCaptured "pay_123" [("k", "v")] }

/-- Witness for C8 at concrete inputs: missing secret, empty secret, bad
signature, and a replayed capture for an already-captured payment. -/
theorem C8_witness :
    webhookRoute concatHmac none "x" capturedReqA payDbA = (200, payDbA) ∧
    webhookRoute concatHmac (some "") "x" capturedReqA payDbA = (200, payDbA) ∧
    webhookRoute concatHmac (some "sec") "bad" capturedReqA payDbA = (400, payDbA) ∧
    webhookRoute concatHmac (some "sec") "sec/body" capturedReqA payDbA = (200, payDbA) := by
  refine ⟨?_, ?_, ?_, ?_⟩
  · exact (C8_webhook_misconfig_signature_idempotent concatHmac "x" capturedReqA payDbA).1
  · exact (C8_webhook_misconfig_signature_idempotent concatHmac "x" capturedReqA payDbA).2.1
  · exact (C8_webhook_misconfig_signature_idempotent concatHmac "bad" capturedReqA
      payDbA).2.2.1 "sec" (by decide) (by decide)
  · exact (C8_webhook_misconfig_signature_idempotent concatHmac "sec/body" capturedReqA
      payDbA).2.2.2 "sec" "pay_123" [("k", "v")] capturedPaymentA
      (by decide) (by decide) rfl rfl rfl

/-! ## C9 -/

/-- C9: a login that has passed the app, pause, username, password, ban and
expiry checks: when hwidLock is on and the stored hwid differs from the
supplied one, the login is rejected with the configured hwidMismatch message
and the whole snapshot — in particular the client's loginCount, lastLogin
and hwid — is unchanged; when hwidLock is off, a differing hwid is adopted
and the login succeeds, bumping loginCount and lastLogin. -/
theorem C9_login_hwid_lock
    (db : DB) (now : Int) (appIdStr appSecretStr username hwid : String)
    (app : App) (c : Client)
    (ha : db.apps.find? (fun a => a.appId == appIdStr && a.appSecret == appSecretStr) = some app)
    (hp : app.paused = false)
    (hc : db.clients.find? (fun x => x.app == app.id && x.username == username) = some c)
    (hb : c.ban = false)
    (he : ¬ now > c.expiresAt) :
    (app.hwidLock = true → c.hwid ≠ some hwid →
      clientLogin db now appIdStr appSecretStr username c.password hwid =
        (LoginResult.err (getErrorMessage app.errorMessages.hwidMismatch), db)) ∧
    (app.hwidLock = false →
      clientLogin db now appIdStr appSecretStr username c.password hwid =
        (LoginResult.ok (getErrorMessage app.errorMessages.loggedInMsg),
          { db with clients := db.clients.map (fun x =>
              if x.id == c.id then
                { c with hwid := some hwid, lastLogin := some now,
                         loginCount := c.loginCount + 1 }
              else x) })) := by
  unfold clientLogin
  simp only [ha, hp, hc]
  constructor
  · intro hl hh
    simp [hb, he, hl, hh]
  · intro hl
    simp [hb, he, hl]

def clientA : Client :=
  { id := 20, app := 10, username := "alice", password := "pw123456",
    hwid := some "HW1", licenseKey := "K100", ban := false, expiresAt := 1000,
    lastLogin := none, loginCount := 3 }

def appNoLockA : App := { appA with id := 12, appId := "APP00012", hwidLock := false }

def clientNoLockA : Client := { clientA with id := 21, app := 12 }

def dbC9 : DB :=
  { apps := [appA, appNoLockA], licenses := [], clients := [clientA, clientNoLockA],
    resellers := [] }

/-- Witness for C9: with hwidLock on, a differing hwid is rejected and the
snapshot unchanged; with hwidLock off, the differing hwid is adopted and the
login counters are updated. -/
theorem C9_witness :
    clientLogin dbC9 500 "APP12345" "SECRET000" "alice" "pw123456" "HW2" =
      (LoginResult.err "hwid mismatch", dbC9) ∧
    clientLogin dbC9 500 "APP00012" "SECRET000" "alice" "pw123456" "HW2" =
      (LoginResult.ok "logged in",
        { dbC9 with clients := [clientA,
            { clientNoLockA with hwid := some "HW2", lastLogin := some 500,
                                 loginCount := 4 }] }) := by
  constructor
  · exact (C9_login_hwid_lock dbC9 500 "APP12345" "SECRET000" "alice" "HW2" appA clientA
      rfl rfl rfl rfl (by decide)).1 rfl (by decide)
  · exact (C9_login_hwid_lock dbC9 500 "APP00012" "SECRET000" "alice" "HW2" appNoLockA
      clientNoLockA rfl rfl rfl rfl (by decide)).2 rfl

/-! ## C3 -/

def dbC3nf : DB :=
  { apps := [appA], licenses := [], clients := [], resellers := [] }

/-- Counterexample to C3 as stated: the license-not-found rejection does not
return the app-configurable message (the App schema even has a configurable
`keyNotFound` message, here set to "key not found msg"); the handler
hardcodes the string 'Invalid license key'. -/
theorem C3_counterexample_not_found_message_hardcoded :
    clientRegister dbC3nf 0 "alice" "pw123456" "NOKEY" none 1 =
      some (RegResult.err "Invalid license key", dbC3nf) ∧
    "Invalid license key" ≠ getErrorMessage msgsA.keyNotFound := by
  exact ⟨rfl, by decide⟩

/-- C3 (amended): the rejection checks run in the literal order license not
found (fixed message 'Invalid license key'), app paused, license already
used, license status not ACTIVE, license expired, username too short,
username taken — the latter six each returning the corresponding
app-configurable message — every failure leaves the snapshot (in particular
the License's used and status fields) unchanged and creates no Client, and
on success the Client is created and the License marked used with
`usedBy` bound in the same step. -/
theorem C3_register_check_order_and_frame
    (db : DB) (now : Int) (username password licenseKey : String)
    (hwid : Option String) (cid : Nat) (lic : License) (app : App)
    (hl : db.licenses.find? (fun l => l.key == licenseKey) = some lic)
    (ha : db.apps.find? (fun a => a.id == lic.app) = some app) :
    (∀ db2, db2.licenses.find? (fun l => l.key == licenseKey) = none →
      clientRegister db2 now username password licenseKey hwid cid =
        some (RegResult.err "Invalid license key", db2)) ∧
    (app.paused = true →
      clientRegister db now username password licenseKey hwid cid =
        some (RegResult.err (getErrorMessage app.errorMessages.pausedApp), db)) ∧
    (app.paused = false → lic.used = true →
      clientRegister db now username password licenseKey hwid cid =
        some (RegResult.err (getErrorMessage app.errorMessages.keyUsed), db)) ∧
    (app.paused = false → lic.used = false → lic.status ≠ LicenseStatus.ACTIVE →
      clientRegister db now username password licenseKey hwid cid =
        some (RegResult.err (getErrorMessage app.errorMessages.keyBanned), db)) ∧
    (app.paused = false → lic.used = false → lic.status = LicenseStatus.ACTIVE →
      now > lic.expiresAt →
      clientRegister db now username password licenseKey hwid cid =
        some (RegResult.err (getErrorMessage app.errorMessages.noActiveSubs), db)) ∧
    (app.paused = false → lic.used = false → lic.status = LicenseStatus.ACTIVE →
      ¬ now > lic.expiresAt → username.length < 3 →
      clientRegister db now username password licenseKey hwid cid =
        some (RegResult.err (getErrorMessage app.errorMessages.unTooShort), db)) ∧
    (app.paused = false → lic.used = false → lic.status = LicenseStatus.ACTIVE →
      ¬ now > lic.expiresAt → ¬ username.length < 3 →
      (db.clients.find? (fun c => c.app == app.id && c.username == username)).isSome = true →
      clientRegister db now username password licenseKey hwid cid =
        some (RegResult.err (getErrorMessage app.errorMessages.usernameTaken), db)) ∧
    (app.paused = false → lic.used = false → lic.status = LicenseStatus.ACTIVE →
      ¬ now > lic.expiresAt → ¬ username.length < 3 →
      db.clients.find? (fun c => c.app == app.id && c.username == username) = none →
      clientRegister db now username password licenseKey hwid cid =
        some (RegResult.ok cid,
          { db with
            clients := db.clients ++
              [{ id := cid, app := app.id, username := username,
                 password := password, hwid := hwid, licenseKey := licenseKey,
                 ban := false, expiresAt := lic.expiresAt, lastLogin := none,
                 loginCount := 0 }],
            licenses := db.licenses.map (fun l =>
              if l.id == lic.id then { l with used := true, usedBy := some cid }
              else l) })) := by
  refine ⟨?_, ?_, ?_, ?_, ?_, ?_, ?_, ?_⟩
  · intro db2 hnone
    unfold clientRegister
    simp [hnone]
  · intro hpaused
    unfold clientRegister
    simp [hl, ha, hpaused]
  · intro hpaused hused
    unfold clientRegister
    simp [hl, ha, hpaused, hused]
  · intro hpaused hused hstatus
    unfold clientRegister
    simp [hl, ha, hpaused, hused, hstatus]
  · intro hpaused hused hstatus hexp
    unfold clientRegister
    simp [hl, ha, hpaused, hused, hstatus, License.isExpired, hexp]
  · intro hpaused hused hstatus hexp hshort
    unfold clientRegister
    simp [hl, ha, hpaused, hused, hstatus, License.isExpired, hexp, hshort]
  · intro hpaused hused hstatus hexp hshort htaken
    unfold clientRegister
    simp [hl, ha, hpaused, hused, hstatus, License.isExpired, hexp, hshort, htaken]
  · intro hpaused hused hstatus hexp hshort hfree
    unfold clientRegister
    simp [hl, ha, hpaused, hused, hstatus, License.isExpired, hexp, hshort, hfree]

def licFreshA : License :=
  { id := 102, app := 10, key := "K102", createdByUser := 1,
    createdByType := CreatorType.owner, reseller := none, used := false,
    usedBy := none, status := LicenseStatus.ACTIVE, note := none,
    expiresAt := 1000 }

def appPausedA : App := { appA with id := 13, paused := true }

def licPausedA : License := { licFreshA with id := 103, key := "K103", app := 13 }

def licUsedA : License :=
  { licFreshA with id := 104, key := "K104", used := true, usedBy := some 20 }

def dbC3 : DB :=
  { apps := [appA, appPausedA],
    licenses := [licFreshA, licPausedA, licUsedA, licResellerA],
    clients := [clientA], resellers := [] }

/-- Witness for C3 exercising each rejection branch and the success branch
on concrete snapshots. -/
theorem C3_witness :
    clientRegister dbC3nf 0 "bob" "pw123456" "K102" none 30 =
      some (RegResult.err "Invalid license key", dbC3nf) ∧
    clientRegister dbC3 0 "bob" "pw123456" "K103" none 30 =
      some (RegResult.err "app paused", dbC3) ∧
    clientRegister dbC3 0 "bob" "pw123456" "K104" none 30 =
      some (RegResult.err "key used", dbC3) ∧
    clientRegister dbC3 0 "bob" "pw123456" "K100" none 30 =
      some (RegResult.err "key banned", dbC3) ∧
    clientRegister dbC3 2000 "bob" "pw123456" "K102" none 30 =
      some (RegResult.err "no active subs", dbC3) ∧
    clientRegister dbC3 0 "bo" "pw123456" "K102" none 30 =
      some (RegResult.err "username too short", dbC3) ∧
    clientRegister dbC3 0 "alice" "pw123456" "K102" none 30 =
      some (RegResult.err "username taken", dbC3) ∧
    clientRegister dbC3 0 "bob" "pw123456" "K102" none 30 =
      some (RegResult.ok 30,
        { dbC3 with
          clients := dbC3.clients ++
            [{ id := 30, app := 10, username := "bob", password := "pw123456",
               hwid := none, licenseKey := "K102", ban := false,
               expiresAt := 1000, lastLogin := none, loginCount := 0 }],
          licenses := [{ licFreshA with used := true, usedBy := some 30 },
                       licPausedA, licUsedA, licResellerA] }) := by
  refine ⟨?_, ?_, ?_, ?_, ?_, ?_, ?_, ?_⟩
  · exact (C3_register_check_order_and_frame dbC3 0 "bob" "pw123456" "K102" none 30
      licFreshA appA rfl rfl).1 dbC3nf rfl
  · exact (C3_register_check_order_and_frame dbC3 0 "bob" "pw123456" "K103" none 30
      licPausedA appPausedA rfl rfl).2.1 rfl
  · exact (C3_register_check_order_and_frame dbC3 0 "bob" "pw123456" "K104" none 30
      licUsedA appA rfl rfl).2.2.1 rfl rfl
  · exact (C3_register_check_order_and_frame dbC3 0 "bob" "pw123456" "K100" none 30
      licResellerA appA rfl rfl).2.2.2.1 rfl rfl (by decide)
  · exact (C3_register_check_order_and_frame dbC3 2000 "bob" "pw123456" "K102" none 30
      licFreshA appA rfl rfl).2.2.2.2.1 rfl rfl rfl (by decide)
  · exact (C3_register_check_order_and_frame dbC3 0 "bo" "pw123456" "K102" none 30
      licFreshA appA rfl rfl).2.2.2.2.2.1 rfl rfl rfl (by decide) (by decide)
  · exact (C3_register_check_order_and_frame dbC3 0 "alice" "pw123456" "K102" none 30
      licFreshA appA rfl rfl).2.2.2.2.2.2.1 rfl rfl rfl (by decide) (by decide) rfl
  · exact (C3_register_check_order_and_frame dbC3 0 "bob" "pw123456" "K102" none 30
      licFreshA appA rfl rfl).2.2.2.2.2.2.2 rfl rfl rfl (by decide) (by decide) rfl

/-! ## C10 -/

theorem genKeys_length (n : Nat) :
    ∀ ex cands ks rest, genKeys ex cands n = some (ks, rest) → ks.length = n := by
  induction n with
  | zero =>
    intro ex cands ks rest h
    simp [genKeys] at h
    simp [h.1]
  | succ m ih =>
    intro ex cands ks rest h
    unfold genKeys at h
    cases hp : pickFreshKey ex cands with
    | none => rw [hp] at h; simp at h
    | some kr =>
      obtain ⟨k, rest1⟩ := kr
      rw [hp] at h
      dsimp only at h
      cases hg : genKeys (k :: ex) rest1 m with
      | none => rw [hg] at h; simp at h
      | some p2 =>
        obtain ⟨ks2, rest2⟩ := p2
        rw [hg] at h
        simp at h
        rw [← h.1]
        simp [ih _ _ _ _ hg]

theorem mkResellerLicenses_length (r : Reseller) (e : Int) (note : Option String) :
    ∀ ks i, (mkResellerLicenses r e note ks i).length = ks.length := by
  intro ks
  induction ks with
  | nil => intro i; rfl
  | cons k ks ih => intro i; simp [mkResellerLicenses, ih]

theorem mkResellerLicenses_fields (r : Reseller) (e : Int) (note : Option String) :
    ∀ ks i, ∀ l ∈ mkResellerLicenses r e note ks i,
      l.createdByType = CreatorType.reseller ∧ l.app = r.app ∧ l.reseller = some r.id := by
  intro ks
  induction ks with
  | nil => intro i l hl; simp [mkResellerLicenses] at hl
  | cons k ks ih =>
    intro i l hl
    simp only [mkResellerLicenses, List.mem_cons] at hl
    rcases hl with h | h
    · subst h; exact ⟨rfl, rfl, rfl⟩
    · exact ih (i + 1) l h

/-- C10: bulk creation by an active reseller with 1 ≤ count ≤ 100 and a
future expiry: if the limit is finite and usedLicenses + count exceeds it
the request is rejected (with the over-limit message, or with the
limit-reached message when the counter is already at or past the limit) and
no license is created; otherwise exactly count licenses are created, each
with createdByType reseller and bound to the reseller's app, and the
reseller's usedLicenses rises by exactly count. -/
theorem C10_bulk_create_quota_and_count
    (db : DB) (rid : Nat) (count : Nat) (expiresAt now : Int) (note : Option String)
    (startId : Nat) (cands : List String) (r : Reseller)
    (hr : db.resellers.find? (fun x => x.id == rid) = some r)
    (hactive : r.active = true)
    (hc1 : 1 ≤ count) (hc2 : count ≤ 100)
    (hexp : expiresAt > now) :
    (r.licenseLimit ≠ -1 → r.usedLicenses < r.licenseLimit →
      r.usedLicenses + (count : Int) > r.licenseLimit →
      resellerBulkCreate db rid count expiresAt now note startId cands =
        some (Except.error ("Cannot create " ++ toString count ++
          " licenses. You have " ++ toString r.remainingLicenses ++
          " licenses remaining."))) ∧
    (r.licenseLimit ≠ -1 → ¬ r.usedLicenses < r.licenseLimit →
      resellerBulkCreate db rid count expiresAt now note startId cands =
        some (Except.error ("License limit reached. You can create " ++
          toString r.licenseLimit ++ " licenses total."))) ∧
    (∀ ks rest, (r.licenseLimit = -1 ∨ r.usedLicenses + (count : Int) ≤ r.licenseLimit) →
      genKeys (db.licenses.map (fun l => l.key)) cands count = some (ks, rest) →
      resellerBulkCreate db rid count expiresAt now note startId cands =
        some (Except.ok
          { db with
            licenses := db.licenses ++ mkResellerLicenses r expiresAt note ks startId,
            resellers := db.resellers.map (fun x =>
              if x.id == rid then { x with usedLicenses := x.usedLicenses + (count : Int) }
              else x) }) ∧
      (mkResellerLicenses r expiresAt note ks startId).length = count ∧
      ∀ l ∈ mkResellerLicenses r expiresAt note ks startId,
        l.createdByType = CreatorType.reseller ∧ l.app = r.app ∧ l.reseller = some r.id) := by
  have hcA : ¬ count = 0 := by omega
  have hcB : ¬ 100 < count := by omega
  refine ⟨?_, ?_, ?_⟩
  · intro hne hlt hover
    have hcc : r.canCreateLicense = true := by
      simp [Reseller.canCreateLicense, hactive, hlt]
    unfold resellerBulkCreate
    simp [hr, hactive, hcA, hcB, hcc, hne, hover]
  · intro hne hge
    have hcc : r.canCreateLicense = false := by
      simp [Reseller.canCreateLicense, hactive, hge, hne]
    unfold resellerBulkCreate
    simp [hr, hactive, hcA, hcB, hcc, hne]
  · intro ks rest hok hgen
    have hcc : r.canCreateLicense = true := by
      rcases hok with h | h
      · simp [Reseller.canCreateLicense, hactive, h]
      · have : r.usedLicenses < r.licenseLimit := by omega
        simp [Reseller.canCreateLicense, hactive, this]
    have hnotover : ¬ (r.licenseLimit ≠ -1 ∧ r.usedLicenses + (count : Int) > r.licenseLimit) := by
      rcases hok with h | h
      · simp [h]
      · intro hcontra
        omega
    refine ⟨?_, ?_, mkResellerLicenses_fields r expiresAt note ks startId⟩
    · unfold resellerBulkCreate
      simp [hr, hactive, hcA, hcB, hcc, hnotover, hexp, hgen]
    · rw [mkResellerLicenses_length]
      exact genKeys_length count _ _ _ _ hgen

def resellerNearLimitA : Reseller :=
  { resellerA with id := 6, licenseLimit := 5, usedLicenses := 4 }

def resellerFullA : Reseller :=
  { resellerA with id := 7, licenseLimit := 5, usedLicenses := 5 }

def dbC10 : DB :=
  { apps := [appA], licenses := [licResellerA], clients := [],
    resellers := [resellerNearLimitA, resellerFullA, resellerA] }

/-- Witness for C10: a reseller at 4 of 5 asking for 2 is rejected with the
over-limit message; a reseller at 5 of 5 asking for 1 is rejected with the
limit-reached message; a reseller at 4 of 5 asking for 1 succeeds, creating
exactly one reseller-typed license and bumping the counter to 5. -/
theorem C10_witness :
    resellerBulkCreate dbC10 6 2 500 0 none 300 ["K100", "NEW1", "NEW2"] =
      some (Except.error
        "Cannot create 2 licenses. You have 1 licenses remaining.") ∧
    resellerBulkCreate dbC10 7 1 500 0 none 300 ["NEW1"] =
      some (Except.error "License limit reached. You can create 5 licenses total.") ∧
    resellerBulkCreate dbC10 6 1 500 0 none 300 ["K100", "NEW1"] =
      some (Except.ok
        { dbC10 with
          licenses := [licResellerA,
            { id := 300, app := 10, key := "NEW1", createdByUser := 6,
              createdByType := CreatorType.reseller, reseller := some 6,
              used := false, usedBy := none, status := LicenseStatus.ACTIVE,
              note := none, expiresAt := 500 }],
          resellers := [{ resellerNearLimitA with usedLicenses := 5 },
                        resellerFullA, resellerA] }) := by
  refine ⟨?_, ?_, ?_⟩
  · exact (C10_bulk_create_quota_and_count dbC10 6 2 500 0 none 300
      ["K100", "NEW1", "NEW2"] resellerNearLimitA rfl rfl (by decide) (by decide)
      (by decide)).1 (by decide) (by decide) (by decide)
  · exact (C10_bulk_create_quota_and_count dbC10 7 1 500 0 none 300
      ["NEW1"] resellerFullA rfl rfl (by decide) (by decide)
      (by decide)).2.1 (by decide) (by decide)
  · exact ((C10_bulk_create_quota_and_count dbC10 6 1 500 0 none 300
      ["K100", "NEW1"] resellerNearLimitA rfl rfl (by decide) (by decide)
      (by decide)).2.2 ["NEW1"] [] (Or.inr (by decide)) rfl).1

/-! ## C2 -/

theorem pickFreshKey_not_mem (ex : List String) :
    ∀ cs k rest, pickFreshKey ex cs = some (k, rest) → k ∉ ex := by
  intro cs
  induction cs with
  | nil => intro k rest hpk; simp [pickFreshKey] at hpk
  | cons c cs ih =>
    intro k rest hpk
    unfold pickFreshKey at hpk
    by_cases hc : ex.contains c
    · rw [if_pos hc] at hpk
      exact ih k rest hpk
    · rw [if_neg hc] at hpk
      simp at hpk
      intro hmem
      apply hc
      rw [← hpk.1] at hmem
      simpa using hmem

theorem key_not_mem_of_find_none (ls : List License) (k : String)
    (hf : ls.find? (fun l => l.key == k) = none) :
    k ∉ ls.map (fun l => l.key) := by
  intro hmem
  rw [List.mem_map] at hmem
  obtain ⟨l, hl, hk⟩ := hmem
  have := List.find?_eq_none.mp hf l hl
  simp [hk] at this

theorem genKeys_fresh (n : Nat) :
    ∀ ex cands ks rest, genKeys ex cands n = some (ks, rest) →
      (∀ k ∈ ks, k ∉ ex) ∧ ks.Nodup := by
  induction n with
  | zero =>
    intro ex cands ks rest hg
    simp [genKeys] at hg
    simp [hg.1]
  | succ m ih =>
    intro ex cands ks rest hg
    unfold genKeys at hg
    cases hp : pickFreshKey ex cands with
    | none => rw [hp] at hg; simp at hg
    | some kr =>
      obtain ⟨k, rest1⟩ := kr
      rw [hp] at hg
      dsimp only at hg
      cases hrec : genKeys (k :: ex) rest1 m with
      | none => rw [hrec] at hg; simp at hg
      | some p2 =>
        obtain ⟨ks2, rest2⟩ := p2
        rw [hrec] at hg
        simp at hg
        obtain ⟨hfresh2, hnodup2⟩ := ih (k :: ex) rest1 ks2 rest2 hrec
        have hknotex : k ∉ ex := pickFreshKey_not_mem ex cands k rest1 hp
        rw [← hg.1]
        constructor
        · intro k2 hk2
          rcases List.mem_cons.mp hk2 with hk2 | hk2
          · rw [hk2]; exact hknotex
          · intro hex
            exact hfresh2 k2 hk2 (List.mem_cons_of_mem k hex)
        · rw [List.nodup_cons]
          refine ⟨?_, hnodup2⟩
          intro hkin
          exact hfresh2 k hkin (List.mem_cons_self k ex)

theorem mkResellerLicenses_map_key (r : Reseller) (e : Int) (note : Option String) :
    ∀ ks i, (mkResellerLicenses r e note ks i).map (fun l => l.key) = ks := by
  intro ks
  induction ks with
  | nil => intro i; rfl
  | cons k ks ih => intro i; simp [mkResellerLicenses, ih]

theorem mkResellerLicenses_unused (r : Reseller) (e : Int) (note : Option String) :
    ∀ ks i, ∀ l ∈ mkResellerLicenses r e note ks i, l.used = false := by
  intro ks
  induction ks with
  | nil => intro i l hl; simp [mkResellerLicenses] at hl
  | cons k ks ih =>
    intro i l hl
    simp only [mkResellerLicenses, List.mem_cons] at hl
    rcases hl with hl | hl
    · subst hl; rfl
    · exact ih (i + 1) l hl

theorem map_key_preserved (ls : List License) (f : License → License)
    (hf : ∀ l, (f l).key = l.key) :
    (ls.map f).map (fun l => l.key) = ls.map (fun l => l.key) := by
  induction ls with
  | nil => rfl
  | cons a as ih => simp [hf, ih]

/-- C2: the license-collection invariant — used implies bound, keys pairwise
distinct — is preserved by every embedded operation that touches it: client
registration (which marks used and binds usedBy in the same step), client
deletion (which clears both), single license creation (whose custom key is
collision-checked and whose generated key is drawn fresh), and bulk reseller
creation (all generated keys fresh and mutually distinct). -/
theorem C2_license_invariant_preserved (db : DB) (h : licenseInvariant db) :
    (∀ now username password licenseKey hwid cid rr db2,
      clientRegister db now username password licenseKey hwid cid = some (rr, db2) →
      licenseInvariant db2) ∧
    (∀ clientId userId db2,
      deleteClientRoute db clientId userId = some (Except.ok db2) →
      licenseInvariant db2) ∧
    (∀ user appIdArg key expiresAt note newId cands db2,
      postLicenseOwner db user appIdArg key expiresAt note newId cands =
        some (Except.ok db2) →
      licenseInvariant db2) ∧
    (∀ rid count expiresAt now note startId cands db2,
      resellerBulkCreate db rid count expiresAt now note startId cands =
        some (Except.ok db2) →
      licenseInvariant db2) := by
  refine ⟨?_, ?_, ?_, ?_⟩
  · -- clientRegister
    intro now username password licenseKey hwid cid rr db2 hreg
    unfold clientRegister at hreg
    split at hreg
    · simp at hreg; exact hreg.2 ▸ h
    · rename_i lic hlic
      split at hreg
      · simp at hreg
      · rename_i app happ
        split at hreg
        · simp at hreg; exact hreg.2 ▸ h
        · split at hreg
          · simp at hreg; exact hreg.2 ▸ h
          · split at hreg
            · simp at hreg; exact hreg.2 ▸ h
            · split at hreg
              · simp at hreg; exact hreg.2 ▸ h
              · split at hreg
                · simp at hreg; exact hreg.2 ▸ h
                · split at hreg
                  · simp at hreg; exact hreg.2 ▸ h
                  · simp only [Option.some.injEq, Prod.mk.injEq] at hreg
                    rw [← hreg.2]
                    constructor
                    · intro l2 hl2
                      rw [List.mem_map] at hl2
                      obtain ⟨l, hml, hfl⟩ := hl2
                      rw [← hfl]
                      by_cases hid : (l.id == lic.id) = true
                      · simp [hid]
                      · simp only [hid, Bool.false_eq_true, if_false]
                        exact h.1 l hml
                    · rw [map_key_preserved]
                      · exact h.2
                      · intro l
                        by_cases hid : (l.id == lic.id) = true <;> simp [hid]
  · -- deleteClientRoute
    intro clientId userId db2 hdel
    unfold deleteClientRoute at hdel
    split at hdel
    · simp at hdel
    · rename_i c hc
      split at hdel
      · simp at hdel
      · rename_i app happ
        split at hdel
        · simp at hdel
        · simp only [Option.some.injEq, Except.ok.injEq] at hdel
          rw [← hdel]
          constructor
          · intro l2 hl2
            rw [List.mem_map] at hl2
            obtain ⟨l, hml, hfl⟩ := hl2
            rw [← hfl]
            by_cases hk : (l.key == c.licenseKey) = true
            · simp [hk]
            · simp only [hk, Bool.false_eq_true, if_false]
              exact h.1 l hml
          · rw [map_key_preserved]
            · exact h.2
            · intro l
              by_cases hk : (l.key == c.licenseKey) = true <;> simp [hk]
  · -- postLicenseOwner
    intro user appIdArg key expiresAt note newId cands db2 hpost
    unfold postLicenseOwner at hpost
    split at hpost
    · simp at hpost
    · rename_i app happ
      split at hpost
      · simp at hpost
      · split at hpost
        · simp at hpost
        · split at hpost
          · -- custom key supplied
            rename_i k
            split at hpost
            · simp at hpost
            · split at hpost
              · simp at hpost
              · rename_i hnotdup
                simp only [Option.some.injEq, Except.ok.injEq] at hpost
                rw [← hpost]
                have hfresh : k ∉ db.licenses.map (fun l => l.key) := by
                  apply key_not_mem_of_find_none
                  rw [Option.not_isSome_iff_eq_none] at hnotdup
                  exact hnotdup
                constructor
                · intro l2 hl2
                  rcases List.mem_append.mp hl2 with hl2 | hl2
                  · exact h.1 l2 hl2
                  · simp at hl2
                    rw [hl2]
                    intro hu
                    simp at hu
                · rw [List.map_append]
                  rw [List.nodup_append]
                  refine ⟨h.2, List.nodup_singleton k, ?_⟩
                  intro a ha hb
                  simp at hb
                  rw [hb] at ha
                  exact hfresh ha
          · -- key generated by the pre-save hook
            cases hpick : pickFreshKey (db.licenses.map (fun l => l.key)) cands with
            | none => rw [hpick] at hpost; simp at hpost
            | some kr =>
              obtain ⟨k, rest⟩ := kr
              rw [hpick] at hpost
              dsimp only at hpost
              simp only [Option.some.injEq, Except.ok.injEq] at hpost
              rw [← hpost]
              have hfresh : k ∉ db.licenses.map (fun l => l.key) :=
                pickFreshKey_not_mem _ cands k rest hpick
              constructor
              · intro l2 hl2
                rcases List.mem_append.mp hl2 with hl2 | hl2
                · exact h.1 l2 hl2
                · simp at hl2
                  rw [hl2]
                  intro hu
                  simp at hu
              · rw [List.map_append]
                rw [List.nodup_append]
                refine ⟨h.2, List.nodup_singleton k, ?_⟩
                intro a ha hb
                simp at hb
                rw [hb] at ha
                exact hfresh ha
  · -- resellerBulkCreate
    intro rid count expiresAt now note startId cands db2 hbulk
    unfold resellerBulkCreate at hbulk
    split at hbulk
    · simp at hbulk
    · rename_i r hre
      split at hbulk
      · simp at hbulk
      · split at hbulk
        · simp at hbulk
        · split at hbulk
          · simp at hbulk
          · split at hbulk
            · simp at hbulk
            · split at hbulk
              · simp at hbulk
              · cases hgen : genKeys (db.licenses.map (fun l => l.key)) cands count with
                | none => rw [hgen] at hbulk; simp at hbulk
                | some p =>
                  obtain ⟨ks, rest⟩ := p
                  rw [hgen] at hbulk
                  dsimp only at hbulk
                  simp only [Option.some.injEq, Except.ok.injEq] at hbulk
                  rw [← hbulk]
                  obtain ⟨hfresh, hnodup⟩ :=
                    genKeys_fresh count (db.licenses.map (fun l => l.key)) cands ks rest hgen
                  constructor
                  · intro l2 hl2
                    rcases List.mem_append.mp hl2 with hl2 | hl2
                    · exact h.1 l2 hl2
                    · intro hu
                      rw [mkResellerLicenses_unused r expiresAt note ks startId l2 hl2] at hu
                      simp at hu
                  · rw [List.map_append, mkResellerLicenses_map_key]
                    rw [List.nodup_append]
                    refine ⟨h.2, hnodup, ?_⟩
                    intro a ha hb
                    exact hfresh a hb ha

def dbC2 : DB :=
  { apps := [appA], licenses := [licResellerA], clients := [], resellers := [] }

/-- Witness for C2 at a concrete snapshot satisfying the invariant: a failed
registration against an unknown key preserves it. -/
theorem C2_witness :
    licenseInvariant dbC2 ∧
    clientRegister dbC2 0 "bob" "pw123456" "KX" none 40 =
      some (RegResult.err "Invalid license key", dbC2) ∧
    licenseInvariant dbC2 :=
  ⟨by decide, rfl,
    (C2_license_invariant_preserved dbC2 (by decide)).1 0 "bob" "pw123456" "KX"
      none 40 (RegResult.err "Invalid license key") dbC2 rfl⟩

end Bknd
